import Mathlib

/-!
Shallow embedding of the student-productivity CRUD backend
(files database.py, functions.py, db_functions.py, crud.py, auth.py).

Conventions of the embedding:
- ids are Nat, dates are Nat, datetimes are Int;
- the SQLAlchemy session / in-memory module globals are one explicit
  AppState record threaded through every operation;
- every operation returns a pair: the outcome (Except ApiError result,
  where KeyError maps to ApiError.notFound, ValueError to
  ApiError.validacion, HTTP 403 to ApiError.forbidden) and the resulting
  store. Operations of functions.py mutate module-level lists in place,
  so on an exception the store they return is whatever the mutation left
  behind; database-backed operations (db_functions.py) that raise before
  db.commit() leave the store unchanged, because the session is closed
  without committing and the transaction rolls back.
- Python truthiness on an optional integer (the idiom -- if usuario_id: --
  used by the list filters and the role checks) is modelled by pyTruthy:
  None and 0 are falsy.
-/

namespace ProyectoDanna

/-- estado of a Tarea: EstadoTarea enum of functions.py. -/
inductive EstadoTarea where
  | pendiente
  | en_progreso
  | completada
deriving DecidableEq, Repr

/-- rol_en_tutoria: RolTutoria enum of functions.py. -/
inductive RolTutoria where
  | tutor
  | estudiante
deriving DecidableEq, Repr

/-- A row of the roles table (class Rol of database.py). -/
structure RolR where
  id : Nat
  nombre : String
  descripcion : Option String
deriving DecidableEq, Repr

/-- A row of the usuarios table / an entry of usuarios_db. -/
structure Usuario where
  id : Nat
  nombre : String
  email : String
  password : String
  rol_id : Option Nat
deriving DecidableEq, Repr

/-- A row of the tareas table / an entry of tareas_db. -/
structure Tarea where
  id : Nat
  titulo : String
  descripcion : Option String
  fecha_entrega : Option Nat
  estado : EstadoTarea
  usuario_id : Nat
deriving DecidableEq, Repr

/-- A row of the cronograma table / an entry of cronograma_db. -/
structure Cronograma where
  id : Nat
  titulo : String
  descripcion : Option String
  fecha_inicio : Int
  fecha_fin : Int
  usuario_id : Nat
deriving DecidableEq, Repr

/-- A row of the estado_animo table / an entry of estado_animo_db. -/
structure EstadoAnimo where
  id : Nat
  usuario_id : Nat
  fecha : Nat
  estado : String
  comentario : Option String
deriving DecidableEq, Repr

/-- A row of the tutorias table / an entry of tutorias_db. -/
structure Tutoria where
  id : Nat
  tema : String
  descripcion : Option String
  fecha : Int
deriving DecidableEq, Repr

/-- A row of the usuario_tutorias join table (composite key: all three columns). -/
structure UsuarioTutoria where
  usuario_id : Nat
  tutoria_id : Nat
  rol_en_tutoria : RolTutoria
deriving DecidableEq, Repr

/-- Payload UsuarioCreate of functions.py. -/
structure UsuarioCreate where
  nombre : String
  email : String
  rol_id : Option Nat
  password : String
deriving DecidableEq, Repr

/-- Payload TareaCreate of functions.py. -/
structure TareaCreate where
  titulo : String
  descripcion : Option String
  fecha_entrega : Option Nat
  estado : EstadoTarea
  usuario_id : Nat
deriving DecidableEq, Repr

/-- Payload TareaUpdate of functions.py: None means the field was not supplied. -/
structure TareaUpdate where
  titulo : Option String
  descripcion : Option String
  fecha_entrega : Option Nat
  estado : Option EstadoTarea
deriving DecidableEq, Repr

/-- Payload CronogramaCreate of functions.py. -/
structure CronogramaCreate where
  titulo : String
  descripcion : Option String
  fecha_inicio : Int
  fecha_fin : Int
  usuario_id : Nat
deriving DecidableEq, Repr

/-- Payload CronogramaUpdate of functions.py: None means the field was not supplied. -/
structure CronogramaUpdate where
  titulo : Option String
  descripcion : Option String
  fecha_inicio : Option Int
  fecha_fin : Option Int
deriving DecidableEq, Repr

/-- Payload EstadoAnimoCreate of functions.py (fecha optional, defaulting to today). -/
structure EstadoAnimoCreate where
  estado : String
  comentario : Option String
  fecha : Option Nat
  usuario_id : Nat
deriving DecidableEq, Repr

/-- Payload UsuarioTutoriaCreate of functions.py. -/
structure UsuarioTutoriaCreate where
  usuario_id : Nat
  tutoria_id : Nat
  rol_en_tutoria : RolTutoria
deriving DecidableEq, Repr

/-- The three error kinds the endpoints surface: KeyError becomes HTTP 404
(notFound), ValueError becomes HTTP 400 (validacion), permission mismatches
become HTTP 403 (forbidden). -/
inductive ApiError where
  | notFound (msg : String)
  | validacion (msg : String)
  | forbidden (msg : String)
deriving DecidableEq, Repr

/-- The whole store: the six module-level lists of functions.py
(equivalently the six tables of database.py) together with the id
counters (the serial primary keys). -/
structure AppState where
  roles : List RolR
  usuarios : List Usuario
  tareas : List Tarea
  cronograma : List Cronograma
  estado_animo : List EstadoAnimo
  tutorias : List Tutoria
  usuario_tutorias : List UsuarioTutoria
  next_usuario_id : Nat
  next_tarea_id : Nat
  next_cronograma_id : Nat
  next_estado_animo_id : Nat
  next_tutoria_id : Nat
deriving DecidableEq, Repr

/-- Python truthiness of an optional integer (the idiom -- if x: -- on an
Optional[int]): None and 0 are both falsy. -/
def pyTruthy : Option Nat → Bool
  | none => false
  | some n => n ≠ 0

/-- roles_db of functions.py: the three fixed default roles (also what
init_db of database.py seeds into the roles table). -/
def roles_db : List RolR :=
  [⟨1, "Administrador", some "Acceso completo al sistema"⟩,
   ⟨2, "Estudiante", some "Usuario estudiante básico"⟩,
   ⟨3, "Tutor", some "Usuario que puede dar tutorías"⟩]

/-- obtener_rol_por_id of functions.py (lookup in the fixed roles_db). -/
def obtener_rol_por_id (rol_id : Nat) : Option RolR :=
  roles_db.find? (fun r => r.id == rol_id)

/-- obtener_usuario of functions.py: first entry of usuarios_db with the id. -/
def obtener_usuario (s : AppState) (usuario_id : Nat) : Option Usuario :=
  s.usuarios.find? (fun u => u.id == usuario_id)

/-- obtener_tutoria of functions.py (the existence part: first entry of
tutorias_db with the id; the participant list it assembles is not needed
by any claim). -/
def obtener_tutoria (s : AppState) (tutoria_id : Nat) : Option Tutoria :=
  s.tutorias.find? (fun t => t.id == tutoria_id)

/-- crear_usuario of functions.py. -/
def crear_usuario (s : AppState) (payload : UsuarioCreate) :
    Except ApiError Usuario × AppState :=
  if s.usuarios.any (fun u => u.email == payload.email) then
    (.error (.validacion "El email ya está registrado"), s)
  else if pyTruthy payload.rol_id && (obtener_rol_por_id (payload.rol_id.getD 0)).isNone then
    (.error (.notFound "Rol no encontrado"), s)
  else
    let u : Usuario :=
      { id := s.next_usuario_id, nombre := payload.nombre, email := payload.email,
        password := payload.password, rol_id := payload.rol_id }
    (.ok u, { s with usuarios := s.usuarios ++ [u],
                     next_usuario_id := s.next_usuario_id + 1 })

/-- Removal of the first entry of usuarios_db whose id matches
(usuarios_db.remove(usuario_dict) on the dict found by next(...)). -/
def eraseFirstUsuario : List Usuario → Nat → List Usuario
  | [], _ => []
  | u :: rest, uid => if u.id == uid then rest else u :: eraseFirstUsuario rest uid

/-- eliminar_usuario of functions.py: filters out the associated tareas,
cronograma, estado_animo and usuario_tutorias entries, then removes the
user itself. -/
def eliminar_usuario (s : AppState) (usuario_id : Nat) :
    Except ApiError Unit × AppState :=
  match s.usuarios.find? (fun u => u.id == usuario_id) with
  | none => (.error (.notFound "Usuario no encontrado"), s)
  | some _ =>
    (.ok (),
      { s with
        tareas := s.tareas.filter (fun t => t.usuario_id ≠ usuario_id),
        cronograma := s.cronograma.filter (fun c => c.usuario_id ≠ usuario_id),
        estado_animo := s.estado_animo.filter (fun e => e.usuario_id ≠ usuario_id),
        usuario_tutorias := s.usuario_tutorias.filter (fun ut => ut.usuario_id ≠ usuario_id),
        usuarios := eraseFirstUsuario s.usuarios usuario_id })

/-- Field-wise merge performed by actualizar_tarea of functions.py /
update_tarea of db_functions.py: each supplied (non-None) payload field
overwrites the stored one. -/
def mergeTarea (t : Tarea) (p : TareaUpdate) : Tarea :=
  { t with
    titulo := p.titulo.getD t.titulo,
    descripcion := match p.descripcion with | some d => some d | none => t.descripcion,
    fecha_entrega := match p.fecha_entrega with | some f => some f | none => t.fecha_entrega,
    estado := p.estado.getD t.estado }

/-- In-place mutation of the first entry of tareas_db whose id matches. -/
def setFirstTarea : List Tarea → Nat → Tarea → List Tarea
  | [], _, _ => []
  | t :: rest, tid, t2 => if t.id == tid then t2 :: rest else t :: setFirstTarea rest tid t2

/-- actualizar_tarea of functions.py. -/
def actualizar_tarea (s : AppState) (tarea_id : Nat) (payload : TareaUpdate) :
    Except ApiError Tarea × AppState :=
  match s.tareas.find? (fun t => t.id == tarea_id) with
  | none => (.error (.notFound "Tarea no encontrada"), s)
  | some t =>
    let t2 := mergeTarea t payload
    (.ok t2, { s with tareas := setFirstTarea s.tareas tarea_id t2 })

/-- Field-wise merge performed by actualizar_cronograma of functions.py /
update_cronograma of db_functions.py. -/
def mergeCronograma (c : Cronograma) (p : CronogramaUpdate) : Cronograma :=
  { c with
    titulo := p.titulo.getD c.titulo,
    descripcion := match p.descripcion with | some d => some d | none => c.descripcion,
    fecha_inicio := p.fecha_inicio.getD c.fecha_inicio,
    fecha_fin := p.fecha_fin.getD c.fecha_fin }

/-- In-place mutation of the first entry of cronograma_db whose id matches. -/
def setFirstCronograma : List Cronograma → Nat → Cronograma → List Cronograma
  | [], _, _ => []
  | c :: rest, cid, c2 => if c.id == cid then c2 :: rest else c :: setFirstCronograma rest cid c2

/-- crear_cronograma of functions.py: missing user is a KeyError,
fecha_inicio >= fecha_fin is a ValueError, otherwise the event is appended. -/
def crear_cronograma (s : AppState) (payload : CronogramaCreate) :
    Except ApiError Cronograma × AppState :=
  if (obtener_usuario s payload.usuario_id).isNone then
    (.error (.notFound "Usuario no encontrado"), s)
  else if payload.fecha_inicio ≥ payload.fecha_fin then
    (.error (.validacion "La fecha de inicio debe ser anterior a la fecha de fin"), s)
  else
    let c : Cronograma :=
      { id := s.next_cronograma_id, titulo := payload.titulo,
        descripcion := payload.descripcion, fecha_inicio := payload.fecha_inicio,
        fecha_fin := payload.fecha_fin, usuario_id := payload.usuario_id }
    (.ok c, { s with cronograma := s.cronograma ++ [c],
                     next_cronograma_id := s.next_cronograma_id + 1 })

/-- actualizar_cronograma of functions.py. The source mutates the stored
dict field by field and only afterwards validates the dates, so when the
validation fails the ValueError propagates while cronograma_db keeps the
already-mutated entry: the returned store reflects that. -/
def actualizar_cronograma (s : AppState) (cronograma_id : Nat)
    (payload : CronogramaUpdate) : Except ApiError Cronograma × AppState :=
  match s.cronograma.find? (fun c => c.id == cronograma_id) with
  | none => (.error (.notFound "Evento de cronograma no encontrado"), s)
  | some c =>
    let c2 := mergeCronograma c payload
    let s2 := { s with cronograma := setFirstCronograma s.cronograma cronograma_id c2 }
    if c2.fecha_inicio ≥ c2.fecha_fin then
      (.error (.validacion "La fecha de inicio debe ser anterior a la fecha de fin"), s2)
    else
      (.ok c2, s2)

/-- crear_estado_animo of functions.py. The call date.today() is an
environment input, passed here as the explicit argument today; the source
expression -- payload.fecha if payload.fecha else date.today() -- picks the
payload date when supplied (a date object is always truthy). -/
def crear_estado_animo (today : Nat) (s : AppState) (payload : EstadoAnimoCreate) :
    Except ApiError EstadoAnimo × AppState :=
  if (obtener_usuario s payload.usuario_id).isNone then
    (.error (.notFound "Usuario no encontrado"), s)
  else
    let fecha_estado := match payload.fecha with | some f => f | none => today
    let e : EstadoAnimo :=
      { id := s.next_estado_animo_id, usuario_id := payload.usuario_id,
        fecha := fecha_estado, estado := payload.estado,
        comentario := payload.comentario }
    (.ok e, { s with estado_animo := s.estado_animo ++ [e],
                     next_estado_animo_id := s.next_estado_animo_id + 1 })

/-- agregar_usuario_tutoria of functions.py: missing user, then missing
tutoria, are KeyErrors; an existing participation with the same
(usuario_id, tutoria_id, rol_en_tutoria) triple is a ValueError; otherwise
the participation is appended. -/
def agregar_usuario_tutoria (s : AppState) (payload : UsuarioTutoriaCreate) :
    Except ApiError Unit × AppState :=
  if (obtener_usuario s payload.usuario_id).isNone then
    (.error (.notFound "Usuario no encontrado"), s)
  else if (obtener_tutoria s payload.tutoria_id).isNone then
    (.error (.notFound "Tutoría no encontrada"), s)
  else if s.usuario_tutorias.any (fun ut =>
      ut.usuario_id == payload.usuario_id && ut.tutoria_id == payload.tutoria_id &&
      ut.rol_en_tutoria == payload.rol_en_tutoria) then
    (.error (.validacion "El usuario ya está registrado en esta tutoría con este rol"), s)
  else
    (.ok (), { s with usuario_tutorias := s.usuario_tutorias ++
        [⟨payload.usuario_id, payload.tutoria_id, payload.rol_en_tutoria⟩] })

namespace Db

/-- get_usuario_by_email of db_functions.py (also its alias
obtener_usuario_por_email used by the endpoints). -/
def get_usuario_by_email (s : AppState) (email : String) : Option Usuario :=
  s.usuarios.find? (fun u => u.email == email)

/-- get_rol_by_id of db_functions.py: lookup in the roles table. -/
def get_rol_by_id (s : AppState) (rol_id : Nat) : Option RolR :=
  s.roles.find? (fun r => r.id == rol_id)

/-- get_usuarios of db_functions.py. -/
def get_usuarios (s : AppState) : List Usuario :=
  s.usuarios

/-- get_tutorias of db_functions.py (the stored rows; the participant
payload it attaches is not needed by any claim). -/
def get_tutorias (s : AppState) : List Tutoria :=
  s.tutorias

/-- get_tareas of db_functions.py: the usuario_id filter is applied only
when the parameter is truthy (so None and 0 both mean no user filter), the
estado filter only when an estado is supplied. -/
def get_tareas (s : AppState) (usuario_id : Option Nat) (estado : Option EstadoTarea) :
    List Tarea :=
  let q1 :=
    if pyTruthy usuario_id then
      s.tareas.filter (fun t => t.usuario_id == usuario_id.getD 0)
    else s.tareas
  match estado with
  | some e => q1.filter (fun t => t.estado == e)
  | none => q1

/-- get_cronograma of db_functions.py: usuario_id filter under Python
truthiness, then lower and upper bounds on the dates when supplied. -/
def get_cronograma (s : AppState) (usuario_id : Option Nat)
    (fecha_inicio fecha_fin : Option Int) : List Cronograma :=
  let q1 :=
    if pyTruthy usuario_id then
      s.cronograma.filter (fun c => c.usuario_id == usuario_id.getD 0)
    else s.cronograma
  let q2 := match fecha_inicio with
    | some f => q1.filter (fun c => c.fecha_inicio ≥ f)
    | none => q1
  match fecha_fin with
  | some f => q2.filter (fun c => c.fecha_fin ≤ f)
  | none => q2

/-- get_estados_animo of db_functions.py: usuario_id filter under Python
truthiness, then inclusive date bounds when supplied. -/
def get_estados_animo (s : AppState) (usuario_id : Option Nat)
    (fecha_desde fecha_hasta : Option Nat) : List EstadoAnimo :=
  let q1 :=
    if pyTruthy usuario_id then
      s.estado_animo.filter (fun e => e.usuario_id == usuario_id.getD 0)
    else s.estado_animo
  let q2 := match fecha_desde with
    | some f => q1.filter (fun e => e.fecha ≥ f)
    | none => q1
  match fecha_hasta with
  | some f => q2.filter (fun e => e.fecha ≤ f)
  | none => q2

/-- crear_usuario_con_hash of db_functions.py: the creation path used by
both user-creating endpoints; the caller supplies the already-hashed
password. -/
def crear_usuario_con_hash (s : AppState) (payload : UsuarioCreate)
    (password_hash : String) : Except ApiError Usuario × AppState :=
  if (get_usuario_by_email s payload.email).isSome then
    (.error (.validacion "El email ya está registrado"), s)
  else if pyTruthy payload.rol_id && (get_rol_by_id s (payload.rol_id.getD 0)).isNone then
    (.error (.notFound "Rol no encontrado"), s)
  else
    let u : Usuario :=
      { id := s.next_usuario_id, nombre := payload.nombre, email := payload.email,
        password := password_hash, rol_id := payload.rol_id }
    (.ok u, { s with usuarios := s.usuarios ++ [u],
                     next_usuario_id := s.next_usuario_id + 1 })

/-- update_cronograma of db_functions.py. The ORM object is mutated field
by field and the dates validated before db.commit(): when the validation
raises, nothing is committed and the session closes with a rollback, so
the store is unchanged on error. -/
def update_cronograma (s : AppState) (cronograma_id : Nat)
    (payload : CronogramaUpdate) : Except ApiError Cronograma × AppState :=
  match s.cronograma.find? (fun c => c.id == cronograma_id) with
  | none => (.error (.notFound "Evento de cronograma no encontrado"), s)
  | some c =>
    let c2 := mergeCronograma c payload
    if c2.fecha_inicio ≥ c2.fecha_fin then
      (.error (.validacion "La fecha de inicio debe ser anterior a la fecha de fin"), s)
    else
      (.ok c2, { s with cronograma := setFirstCronograma s.cronograma cronograma_id c2 })

end Db

namespace Crud

/-- POST /usuarios of crud.py. The authenticated caller is current_user;
the hash function get_password_hash of auth.py is an opaque environment
input passed as hashFn. Only a caller whose rol_id is 1 passes the
admin gate; then the email is checked and crear_usuario_con_hash runs. -/
def crear_usuario (hashFn : String → String) (current_user : Usuario)
    (s : AppState) (payload : UsuarioCreate) : Except ApiError Usuario × AppState :=
  if current_user.rol_id ≠ some 1 then
    (.error (.forbidden "No tienes permisos para crear usuarios"), s)
  else if (Db.get_usuario_by_email s payload.email).isSome then
    (.error (.validacion "Email ya registrado"), s)
  else
    Db.crear_usuario_con_hash s payload (hashFn payload.password)

/-- POST /auth/register of crud.py: registrar_usuario. The route has no
authentication dependency at all, so there is no caller argument; every
non-HTTPException is mapped to a 400 by its generic except clause. -/
def registrar_usuario (hashFn : String → String) (s : AppState)
    (payload : UsuarioCreate) : Except ApiError Usuario × AppState :=
  if (Db.get_usuario_by_email s payload.email).isSome then
    (.error (.validacion "Email ya registrado"), s)
  else
    match Db.crear_usuario_con_hash s payload (hashFn payload.password) with
    | (.ok u, s2) => (.ok u, s2)
    | (.error (.notFound m), s2) => (.error (.validacion m), s2)
    | (.error (.validacion m), s2) => (.error (.validacion m), s2)
    | (.error (.forbidden m), s2) => (.error (.validacion m), s2)

/-- GET /tareas of crud.py: listar_tareas. A caller whose rol_id is not 1
has the usuario_id query parameter overwritten with their own id before
get_tareas runs. -/
def listar_tareas (current_user : Usuario) (usuario_id : Option Nat)
    (estado : Option EstadoTarea) (s : AppState) : List Tarea :=
  let uid := if current_user.rol_id ≠ some 1 then some current_user.id else usuario_id
  Db.get_tareas s uid estado

/-- Response of GET /estadisticas/usuario/{usuario_id} of crud.py. -/
structure EstadisticasUsuario where
  usuario : Usuario
  total_tareas : Nat
  tareas_pendiente : Nat
  tareas_en_progreso : Nat
  tareas_completada : Nat
  eventos_cronograma : Nat
  registros_estado_animo : Nat
deriving DecidableEq, Repr

/-- GET /estadisticas/usuario/{usuario_id} of crud.py: the route has no
authentication dependency, so there is no caller argument. -/
def estadisticas_usuario (s : AppState) (usuario_id : Nat) :
    Except ApiError EstadisticasUsuario :=
  match s.usuarios.find? (fun u => u.id == usuario_id) with
  | none => .error (.notFound "Usuario no encontrado")
  | some u =>
    let tareas := Db.get_tareas s (some usuario_id) none
    let cron := Db.get_cronograma s (some usuario_id) none none
    let estados := Db.get_estados_animo s (some usuario_id) none none
    .ok { usuario := u,
          total_tareas := tareas.length,
          tareas_pendiente := (tareas.filter (fun t => t.estado == .pendiente)).length,
          tareas_en_progreso := (tareas.filter (fun t => t.estado == .en_progreso)).length,
          tareas_completada := (tareas.filter (fun t => t.estado == .completada)).length,
          eventos_cronograma := cron.length,
          registros_estado_animo := estados.length }

/-- Response of GET /estadisticas/generales of crud.py. -/
structure EstadisticasGenerales where
  total_usuarios : Nat
  total_tareas : Nat
  total_eventos_cronograma : Nat
  total_tutorias : Nat
  total_registros_estado_animo : Nat
deriving DecidableEq, Repr

/-- GET /estadisticas/generales of crud.py: no authentication dependency,
so there is no caller argument. -/
def estadisticas_generales (s : AppState) : EstadisticasGenerales :=
  { total_usuarios := (Db.get_usuarios s).length,
    total_tareas := (Db.get_tareas s none none).length,
    total_eventos_cronograma := (Db.get_cronograma s none none none).length,
    total_tutorias := (Db.get_tutorias s).length,
    total_registros_estado_animo := (Db.get_estados_animo s none none none).length }

end Crud

/-- The store right after init_db: empty tables apart from the three
seeded roles, all serial counters at 1. -/
def estadoInicial : AppState :=
  { roles := roles_db, usuarios := [], tareas := [], cronograma := [],
    estado_animo := [], tutorias := [], usuario_tutorias := [],
    next_usuario_id := 1, next_tarea_id := 1, next_cronograma_id := 1,
    next_estado_animo_id := 1, next_tutoria_id := 1 }

/-! Helper lemmas about the list operations of the embedding. -/

/-- Membership in eraseFirstUsuario, assuming the stored user ids are
distinct (they are serial primary keys): exactly the users with a
different id survive. -/
theorem mem_eraseFirstUsuario {l : List Usuario} {uid : Nat}
    (hnd : (l.map (fun u => u.id)).Nodup) (u : Usuario) :
    u ∈ eraseFirstUsuario l uid ↔ (u ∈ l ∧ u.id ≠ uid) := by
  induction l with
  | nil => simp [eraseFirstUsuario]
  | cons v rest ih =>
    rw [List.map_cons, List.nodup_cons] at hnd
    by_cases hv : v.id = uid
    · have hrest : ∀ w ∈ rest, w.id ≠ uid := by
        intro w hw hwid
        exact hnd.1 (by rw [hv, ← hwid]; exact List.mem_map_of_mem _ hw)
      simp only [eraseFirstUsuario, hv]
      simp only [beq_self_eq_true, if_true, List.mem_cons]
      constructor
      · intro hu
        exact ⟨Or.inr hu, hrest u hu⟩
      · rintro ⟨hu | hu, hne⟩
        · exact absurd (hu ▸ hv) hne
        · exact hu
    · have hbeq : (v.id == uid) = false := by simp [hv]
      simp only [eraseFirstUsuario, hbeq, Bool.false_eq_true, if_false, List.mem_cons,
        ih hnd.2]
      constructor
      · rintro (rfl | ⟨hu, hne⟩)
        · exact ⟨Or.inl rfl, hv⟩
        · exact ⟨Or.inr hu, hne⟩
      · rintro ⟨rfl | hu, hne⟩
        · exact Or.inl rfl
        · exact Or.inr ⟨hu, hne⟩

/-- find? on a split list whose prefix contains no match returns the head
of the suffix when it matches. -/
theorem find?_first_tarea (l1 l2 : List Tarea) (t : Tarea) (tid : Nat)
    (hid : t.id = tid) (hfirst : ∀ x ∈ l1, x.id ≠ tid) :
    (l1 ++ t :: l2).find? (fun x => x.id == tid) = some t := by
  induction l1 with
  | nil => simp [List.find?_cons_of_pos, hid]
  | cons a rest ih =>
    have ha : ¬ ((a.id == tid) = true) := by
      simp only [beq_iff_eq]
      exact hfirst a (List.mem_cons_self a rest)
    have step : List.find? (fun x => x.id == tid) (a :: (rest ++ t :: l2))
        = List.find? (fun x => x.id == tid) (rest ++ t :: l2) :=
      List.find?_cons_of_neg _ ha
    rw [List.cons_append, step]
    exact ih (fun x hx => hfirst x (List.mem_cons_of_mem a hx))

/-- setFirstTarea on a split list whose prefix contains no match replaces
exactly the head of the suffix. -/
theorem setFirstTarea_split (l1 l2 : List Tarea) (t t2 : Tarea) (tid : Nat)
    (hid : t.id = tid) (hfirst : ∀ x ∈ l1, x.id ≠ tid) :
    setFirstTarea (l1 ++ t :: l2) tid t2 = l1 ++ t2 :: l2 := by
  induction l1 with
  | nil => simp [setFirstTarea, hid]
  | cons a rest ih =>
    have ha : (a.id == tid) = false := by
      simp only [beq_eq_false_iff_ne, ne_eq]
      exact hfirst a (List.mem_cons_self a rest)
    simp only [List.cons_append, setFirstTarea, ha, Bool.false_eq_true, if_false,
      List.cons.injEq, true_and]
    exact ih (fun x hx => hfirst x (List.mem_cons_of_mem a hx))

/-- The duplicate check of agregar_usuario_tutoria is exactly membership
of the participation record (the three compared columns are the whole
composite key). -/
theorem anyDup_iff (l : List UsuarioTutoria) (a b : Nat) (r : RolTutoria) :
    (l.any (fun ut => ut.usuario_id == a && ut.tutoria_id == b &&
        ut.rol_en_tutoria == r) = true)
      ↔ (⟨a, b, r⟩ : UsuarioTutoria) ∈ l := by
  rw [List.any_eq_true]
  constructor
  · rintro ⟨ut, hmem, hp⟩
    simp only [Bool.and_eq_true, beq_iff_eq] at hp
    obtain ⟨⟨h1, h2⟩, h3⟩ := hp
    cases ut
    subst h1; subst h2; subst h3
    exact hmem
  · intro hmem
    exact ⟨_, hmem, by simp⟩

/-! Claim theorems. -/

/-- C4: deleting a User cascades. When the user exists (and ids are
distinct, as serial primary keys are), eliminar_usuario succeeds; in the
resulting store exactly the tareas, cronograma events, estado_animo
entries and participations of other users survive, exactly the other
users survive, and the tutorias and roles tables are untouched. -/
theorem c4_eliminar_usuario_cascada (s : AppState) (uid : Nat)
    (hex : (s.usuarios.find? (fun u => u.id == uid)).isSome)
    (hnd : (s.usuarios.map (fun u => u.id)).Nodup) :
    (eliminar_usuario s uid).1 = Except.ok ()
    ∧ (∀ t, t ∈ (eliminar_usuario s uid).2.tareas ↔ (t ∈ s.tareas ∧ t.usuario_id ≠ uid))
    ∧ (∀ c, c ∈ (eliminar_usuario s uid).2.cronograma ↔ (c ∈ s.cronograma ∧ c.usuario_id ≠ uid))
    ∧ (∀ e, e ∈ (eliminar_usuario s uid).2.estado_animo ↔ (e ∈ s.estado_animo ∧ e.usuario_id ≠ uid))
    ∧ (∀ p, p ∈ (eliminar_usuario s uid).2.usuario_tutorias ↔ (p ∈ s.usuario_tutorias ∧ p.usuario_id ≠ uid))
    ∧ (∀ u, u ∈ (eliminar_usuario s uid).2.usuarios ↔ (u ∈ s.usuarios ∧ u.id ≠ uid))
    ∧ (eliminar_usuario s uid).2.tutorias = s.tutorias
    ∧ (eliminar_usuario s uid).2.roles = s.roles := by
  rw [Option.isSome_iff_exists] at hex
  obtain ⟨u, hu⟩ := hex
  refine ⟨?_, ?_, ?_, ?_, ?_, ?_, ?_, ?_⟩ <;>
    simp [eliminar_usuario, hu, List.mem_filter, mem_eraseFirstUsuario hnd]

/-- C5: user creation rejects duplicate emails and accepts fresh ones.
If some stored user already has the payload email, crear_usuario raises
the duplicate-email ValueError and the store is unchanged; if no stored
user has that email and the supplied rol_id (if any) exists, the user is
appended to usuarios_db with that email. -/
theorem c5_crear_usuario_email_unico (s : AppState) (p : UsuarioCreate) :
    ((∃ u ∈ s.usuarios, u.email = p.email) →
      (crear_usuario s p).1 = Except.error (ApiError.validacion "El email ya está registrado")
      ∧ (crear_usuario s p).2 = s)
    ∧ ((∀ u ∈ s.usuarios, u.email ≠ p.email) →
      (∀ r, p.rol_id = some r → (obtener_rol_por_id r).isSome) →
      (crear_usuario s p).1
        = Except.ok ⟨s.next_usuario_id, p.nombre, p.email, p.password, p.rol_id⟩
      ∧ (crear_usuario s p).2.usuarios
        = s.usuarios ++ [⟨s.next_usuario_id, p.nombre, p.email, p.password, p.rol_id⟩]) := by
  constructor
  · rintro ⟨u, hu, he⟩
    have hany : s.usuarios.any (fun v => v.email == p.email) = true := by
      rw [List.any_eq_true]
      exact ⟨u, hu, by simp [he]⟩
    constructor <;> simp [crear_usuario, hany]
  · intro hfresh hrol
    have hany : s.usuarios.any (fun v => v.email == p.email) = false := by
      rw [Bool.eq_false_iff, ne_eq, List.any_eq_true]
      rintro ⟨u, hu, he⟩
      exact hfresh u hu (by simpa using he)
    have hguard : (pyTruthy p.rol_id &&
        (obtener_rol_por_id (p.rol_id.getD 0)).isNone) = false := by
      cases hp : p.rol_id with
      | none => simp [pyTruthy]
      | some r =>
        obtain ⟨rr, hrr⟩ := Option.isSome_iff_exists.mp (hrol r hp)
        simp [hrr]
    constructor <;> simp [crear_usuario, hany, hguard]

/-- C6: adding a tutoring participant. A missing user is the not-found
error for the user, an existing user with a missing tutoring session is
the not-found error for the session (store unchanged in both cases); when
both exist, the duplicate-participation ValueError is raised exactly when
the same (usuario_id, tutoria_id, rol_en_tutoria) triple is already
stored, in which case the store is unchanged; otherwise exactly that one
participation is appended. -/
theorem c6_agregar_usuario_tutoria_contrato (s : AppState) (p : UsuarioTutoriaCreate) :
    ((obtener_usuario s p.usuario_id).isNone →
      agregar_usuario_tutoria s p = (Except.error (ApiError.notFound "Usuario no encontrado"), s))
    ∧ ((obtener_usuario s p.usuario_id).isSome → (obtener_tutoria s p.tutoria_id).isNone →
      agregar_usuario_tutoria s p = (Except.error (ApiError.notFound "Tutoría no encontrada"), s))
    ∧ ((obtener_usuario s p.usuario_id).isSome → (obtener_tutoria s p.tutoria_id).isSome →
      (((agregar_usuario_tutoria s p).1
          = Except.error (ApiError.validacion "El usuario ya está registrado en esta tutoría con este rol"))
        ↔ (⟨p.usuario_id, p.tutoria_id, p.rol_en_tutoria⟩ : UsuarioTutoria) ∈ s.usuario_tutorias)
      ∧ ((⟨p.usuario_id, p.tutoria_id, p.rol_en_tutoria⟩ : UsuarioTutoria) ∈ s.usuario_tutorias →
          (agregar_usuario_tutoria s p).2 = s)
      ∧ ((⟨p.usuario_id, p.tutoria_id, p.rol_en_tutoria⟩ : UsuarioTutoria) ∉ s.usuario_tutorias →
          agregar_usuario_tutoria s p
            = (Except.ok (),
               { s with
                 usuario_tutorias := s.usuario_tutorias ++
                   [⟨p.usuario_id, p.tutoria_id, p.rol_en_tutoria⟩] }))) := by
  refine ⟨?_, ?_, ?_⟩
  · intro hu
    rw [Option.isNone_iff_eq_none] at hu
    simp [agregar_usuario_tutoria, hu]
  · intro hu ht
    obtain ⟨u, hu⟩ := Option.isSome_iff_exists.mp hu
    rw [Option.isNone_iff_eq_none] at ht
    simp [agregar_usuario_tutoria, hu, ht]
  · intro hu ht
    obtain ⟨u, hu⟩ := Option.isSome_iff_exists.mp hu
    obtain ⟨t, ht⟩ := Option.isSome_iff_exists.mp ht
    by_cases hdup : (⟨p.usuario_id, p.tutoria_id, p.rol_en_tutoria⟩ : UsuarioTutoria) ∈ s.usuario_tutorias
    · have hany := (anyDup_iff s.usuario_tutorias p.usuario_id p.tutoria_id p.rol_en_tutoria).mpr hdup
      refine ⟨?_, ?_, ?_⟩
      · simp [agregar_usuario_tutoria, hu, ht, hany, hdup]
      · intro _
        simp [agregar_usuario_tutoria, hu, ht, hany]
      · intro habs
        exact absurd hdup habs
    · have hany : s.usuario_tutorias.any (fun ut =>
          ut.usuario_id == p.usuario_id && ut.tutoria_id == p.tutoria_id &&
          ut.rol_en_tutoria == p.rol_en_tutoria) = false := by
        rw [Bool.eq_false_iff, ne_eq]
        intro h
        exact hdup ((anyDup_iff _ _ _ _).mp h)
      refine ⟨?_, ?_, ?_⟩
      · simp [agregar_usuario_tutoria, hu, ht, hany, hdup]
      · intro habs
        exact absurd habs hdup
      · intro _
        simp [agregar_usuario_tutoria, hu, ht, hany]

/-- C7: partial task update. Splitting the stored list around the first
tarea whose id matches, actualizar_tarea succeeds, replaces exactly that
entry by the merge in which every supplied payload field takes its payload
value and every omitted one keeps the stored value, and leaves every other
tarea and every other table untouched. -/
theorem c7_actualizar_tarea_parcial (s : AppState) (tid : Nat) (p : TareaUpdate)
    (l1 l2 : List Tarea) (t : Tarea)
    (hsplit : s.tareas = l1 ++ t :: l2) (hid : t.id = tid)
    (hfirst : ∀ x ∈ l1, x.id ≠ tid) :
    (actualizar_tarea s tid p).1 = Except.ok (mergeTarea t p)
    ∧ (actualizar_tarea s tid p).2.tareas = l1 ++ mergeTarea t p :: l2
    ∧ (mergeTarea t p).titulo = (match p.titulo with | some v => v | none => t.titulo)
    ∧ (mergeTarea t p).descripcion = (match p.descripcion with | some v => some v | none => t.descripcion)
    ∧ (mergeTarea t p).fecha_entrega = (match p.fecha_entrega with | some v => some v | none => t.fecha_entrega)
    ∧ (mergeTarea t p).estado = (match p.estado with | some v => v | none => t.estado)
    ∧ (mergeTarea t p).id = t.id
    ∧ (mergeTarea t p).usuario_id = t.usuario_id
    ∧ (actualizar_tarea s tid p).2.usuarios = s.usuarios
    ∧ (actualizar_tarea s tid p).2.cronograma = s.cronograma
    ∧ (actualizar_tarea s tid p).2.estado_animo = s.estado_animo
    ∧ (actualizar_tarea s tid p).2.tutorias = s.tutorias
    ∧ (actualizar_tarea s tid p).2.usuario_tutorias = s.usuario_tutorias := by
  have hf : s.tareas.find? (fun x => x.id == tid) = some t := by
    rw [hsplit]
    exact find?_first_tarea l1 l2 t tid hid hfirst
  have hs : setFirstTarea s.tareas tid (mergeTarea t p) = l1 ++ mergeTarea t p :: l2 := by
    rw [hsplit]
    exact setFirstTarea_split l1 l2 t (mergeTarea t p) tid hid hfirst
  refine ⟨by simp [actualizar_tarea, hf], by simp [actualizar_tarea, hf, hs], ?_, ?_, ?_, ?_,
      rfl, rfl, by simp [actualizar_tarea, hf], by simp [actualizar_tarea, hf],
      by simp [actualizar_tarea, hf], by simp [actualizar_tarea, hf],
      by simp [actualizar_tarea, hf]⟩
  · cases ht2 : p.titulo <;> simp [mergeTarea, ht2]
  · cases hd : p.descripcion <;> simp [mergeTarea, hd]
  · cases hfe : p.fecha_entrega <;> simp [mergeTarea, hfe]
  · cases he : p.estado <;> simp [mergeTarea, he]

/-- C8: creating a MoodEntry. When the owner exists, the entry appended by
crear_estado_animo carries the supplied estado and comentario, and its
fecha is the date of the call (the today argument) when the payload fecha
is omitted, and exactly the supplied date otherwise. -/
theorem c8_crear_estado_animo_fecha (today : Nat) (s : AppState) (p : EstadoAnimoCreate)
    (hex : (obtener_usuario s p.usuario_id).isSome) :
    (p.fecha = none →
      crear_estado_animo today s p
        = (Except.ok ⟨s.next_estado_animo_id, p.usuario_id, today, p.estado, p.comentario⟩,
           { s with
             estado_animo := s.estado_animo ++
               [⟨s.next_estado_animo_id, p.usuario_id, today, p.estado, p.comentario⟩],
             next_estado_animo_id := s.next_estado_animo_id + 1 }))
    ∧ (∀ d, p.fecha = some d →
      crear_estado_animo today s p
        = (Except.ok ⟨s.next_estado_animo_id, p.usuario_id, d, p.estado, p.comentario⟩,
           { s with
             estado_animo := s.estado_animo ++
               [⟨s.next_estado_animo_id, p.usuario_id, d, p.estado, p.comentario⟩],
             next_estado_animo_id := s.next_estado_animo_id + 1 })) := by
  obtain ⟨u, hu⟩ := Option.isSome_iff_exists.mp hex
  constructor
  · intro hf
    simp [crear_estado_animo, hu, hf]
  · intro d hf
    simp [crear_estado_animo, hu, hf]

/-- C10: the duplicate check includes the role, so a user already
participating in a session as estudiante can be added as tutor of the same
session, and conversely, as long as that exact (user, session, role)
participation is not already stored; the new participation is appended. -/
theorem c10_ambos_roles (s : AppState) (uid tid : Nat)
    (hu : (obtener_usuario s uid).isSome) (ht : (obtener_tutoria s tid).isSome) :
    (((⟨uid, tid, RolTutoria.estudiante⟩ : UsuarioTutoria) ∈ s.usuario_tutorias) →
      ((⟨uid, tid, RolTutoria.tutor⟩ : UsuarioTutoria) ∉ s.usuario_tutorias) →
      agregar_usuario_tutoria s ⟨uid, tid, RolTutoria.tutor⟩
        = (Except.ok (),
           { s with
             usuario_tutorias := s.usuario_tutorias ++ [⟨uid, tid, RolTutoria.tutor⟩] }))
    ∧ (((⟨uid, tid, RolTutoria.tutor⟩ : UsuarioTutoria) ∈ s.usuario_tutorias) →
      ((⟨uid, tid, RolTutoria.estudiante⟩ : UsuarioTutoria) ∉ s.usuario_tutorias) →
      agregar_usuario_tutoria s ⟨uid, tid, RolTutoria.estudiante⟩
        = (Except.ok (),
           { s with
             usuario_tutorias := s.usuario_tutorias ++ [⟨uid, tid, RolTutoria.estudiante⟩] })) := by
  obtain ⟨u, hu⟩ := Option.isSome_iff_exists.mp hu
  obtain ⟨t, ht⟩ := Option.isSome_iff_exists.mp ht
  constructor
  · intro _ hno
    have hany : s.usuario_tutorias.any (fun ut =>
        ut.usuario_id == uid && ut.tutoria_id == tid &&
        ut.rol_en_tutoria == RolTutoria.tutor) = false := by
      rw [Bool.eq_false_iff, ne_eq]
      intro h
      exact hno ((anyDup_iff _ _ _ _).mp h)
    simp [agregar_usuario_tutoria, hu, ht, hany]
  · intro _ hno
    have hany : s.usuario_tutorias.any (fun ut =>
        ut.usuario_id == uid && ut.tutoria_id == tid &&
        ut.rol_en_tutoria == RolTutoria.estudiante) = false := by
      rw [Bool.eq_false_iff, ne_eq]
      intro h
      exact hno ((anyDup_iff _ _ _ _).mp h)
    simp [agregar_usuario_tutoria, hu, ht, hany]

/-! Concrete data used by witnesses and counterexamples. -/

/-- A sample administrator (rol_id 1). -/
def usuarioAdmin : Usuario := ⟨1, "Root", "root@example.com", "hash1", some 1⟩

/-- A sample student (rol_id 2). -/
def usuarioAna : Usuario := ⟨2, "Ana", "ana@example.com", "hash2", some 2⟩

/-- A sample tutor (rol_id 3). -/
def usuarioBeto : Usuario := ⟨3, "Beto", "beto@example.com", "hash3", some 3⟩

/-- A tarea owned by Ana. -/
def tareaAna : Tarea := ⟨1, "Leer", none, none, EstadoTarea.pendiente, 2⟩

/-- A tarea owned by Beto. -/
def tareaBeto : Tarea := ⟨2, "Escribir", none, none, EstadoTarea.completada, 3⟩

/-- A cronograma event owned by Ana, with fecha_inicio 0 and fecha_fin 10. -/
def eventoAna : Cronograma := ⟨1, "Clase", none, 0, 10, 2⟩

/-- A mood entry of Ana. -/
def animoAna : EstadoAnimo := ⟨1, 2, 5, "feliz", none⟩

/-- A tutoring session. -/
def tutoriaCalculo : Tutoria := ⟨1, "Cálculo", none, 100⟩

/-- A populated store: three users, two tareas, one event, one mood entry,
one tutoring session in which Ana participates as estudiante. -/
def estadoDemo : AppState :=
  { roles := roles_db,
    usuarios := [usuarioAdmin, usuarioAna, usuarioBeto],
    tareas := [tareaAna, tareaBeto],
    cronograma := [eventoAna],
    estado_animo := [animoAna],
    tutorias := [tutoriaCalculo],
    usuario_tutorias := [⟨2, 1, RolTutoria.estudiante⟩],
    next_usuario_id := 4, next_tarea_id := 3, next_cronograma_id := 2,
    next_estado_animo_id := 2, next_tutoria_id := 2 }

/-- C1 (counterexample): the POST /auth/register route is an operation
that creates a User record, yet it has no authentication dependency and no
admin check: invoked on the freshly initialised store with no caller at
all, it succeeds and appends a user. This refutes the claim that every
user-creating operation rejects any caller whose rol_id is not 1 and adds
no user. -/
theorem c1_counterexample :
    Crud.registrar_usuario (fun p => p) estadoInicial ⟨"Ana", "ana@example.com", none, "pw"⟩
      = (Except.ok ⟨1, "Ana", "ana@example.com", "pw", none⟩,
         { estadoInicial with
           usuarios := [⟨1, "Ana", "ana@example.com", "pw", none⟩],
           next_usuario_id := 2 })
    ∧ [(⟨1, "Ana", "ana@example.com", "pw", none⟩ : Usuario)].length
        = estadoInicial.usuarios.length + 1 := by
  exact ⟨rfl, rfl⟩

/-- C1 (amended): the admin-only rule does hold for the POST /usuarios
endpoint: any caller whose rol_id is not 1 gets the forbidden error and
the store is unchanged; only POST /auth/register creates users without an
admin requirement. -/
theorem c1_usuarios_solo_admin (hashFn : String → String) (caller : Usuario)
    (s : AppState) (payload : UsuarioCreate) (h : caller.rol_id ≠ some 1) :
    Crud.crear_usuario hashFn caller s payload
      = (Except.error (ApiError.forbidden "No tienes permisos para crear usuarios"), s) := by
  simp [Crud.crear_usuario, h]

/-- C1 witness: a student caller is rejected by POST /usuarios and the
store is untouched. -/
theorem c1_usuarios_solo_admin_witness :
    (usuarioAna.rol_id ≠ some 1)
    ∧ Crud.crear_usuario (fun p => p) usuarioAna estadoDemo ⟨"Eva", "eva@example.com", none, "pw"⟩
      = (Except.error (ApiError.forbidden "No tienes permisos para crear usuarios"), estadoDemo) :=
  ⟨by decide,
   c1_usuarios_solo_admin (fun p => p) usuarioAna estadoDemo
     ⟨"Eva", "eva@example.com", none, "pw"⟩ (by decide)⟩

/-- C2 (code bug): on the in-memory variant, updating event 1 (dates 0
and 10) with fecha_inicio 20 raises the date-validation ValueError, yet
the stored entry has already been mutated: cronograma_db is left holding
the event with fecha_inicio 20 and fecha_fin 10, violating the
start-before-end invariant the rejection was supposed to preserve. -/
theorem c2_invariante_fechas_violado :
    (actualizar_cronograma estadoDemo 1 ⟨none, none, some 20, none⟩).1
      = Except.error (ApiError.validacion "La fecha de inicio debe ser anterior a la fecha de fin")
    ∧ (actualizar_cronograma estadoDemo 1 ⟨none, none, some 20, none⟩).2.cronograma
      = [⟨1, "Clase", none, 20, 10, 2⟩]
    ∧ ∃ c ∈ (actualizar_cronograma estadoDemo 1 ⟨none, none, some 20, none⟩).2.cronograma,
        c.fecha_fin ≤ c.fecha_inicio := by
  refine ⟨rfl, rfl, ?_⟩
  exact ⟨⟨1, "Clase", none, 20, 10, 2⟩, by decide, by decide⟩

/-- The estado filter that get_tareas applies when the estado query
parameter is supplied. -/
def estadoFiltra (estado : Option EstadoTarea) (l : List Tarea) : List Tarea :=
  match estado with
  | some e => l.filter (fun t => t.estado == e)
  | none => l

/-- C3 (counterexample): for an admin caller the usuario_id query
parameter is NOT always honoured as given: the Python truthiness test
treats the value 0 like an absent filter, so an admin asking for the
tasks of usuario_id 0 receives every task instead of the (empty) list of
tasks whose usuario_id is 0. -/
theorem c3_counterexample :
    Crud.listar_tareas usuarioAdmin (some 0) none estadoDemo
      ≠ estadoDemo.tareas.filter (fun t => t.usuario_id == 0) := by
  decide

/-- C3 (amended): the forced-ownership listing rule, for nonzero ids. A
caller whose rol_id is not 1 and whose id is nonzero receives exactly the
tasks whose usuario_id is their own id (narrowed by the estado filter),
whatever usuario_id parameter they pass; an admin caller is honoured for
any nonzero usuario_id parameter and receives all tasks when passing
none; a usuario_id of 0 is treated by the code as no filter at all. -/
theorem c3_listar_tareas_enmendado (caller : Usuario) (s : AppState)
    (usuario_id : Option Nat) (estado : Option EstadoTarea) :
    (caller.rol_id ≠ some 1 → caller.id ≠ 0 →
      Crud.listar_tareas caller usuario_id estado s
        = estadoFiltra estado (s.tareas.filter (fun t => t.usuario_id == caller.id)))
    ∧ (caller.rol_id = some 1 →
      (∀ u, usuario_id = some u → u ≠ 0 →
        Crud.listar_tareas caller usuario_id estado s
          = estadoFiltra estado (s.tareas.filter (fun t => t.usuario_id == u)))
      ∧ (usuario_id = none →
        Crud.listar_tareas caller usuario_id estado s = estadoFiltra estado s.tareas)) := by
  constructor
  · intro hrol hid
    have ht : pyTruthy (some caller.id) = true := by simp [pyTruthy, hid]
    cases estado <;>
      simp [Crud.listar_tareas, Db.get_tareas, hrol, ht, estadoFiltra]
  · intro hrol
    constructor
    · rintro u rfl hu0
      have ht : pyTruthy (some u) = true := by simp [pyTruthy, hu0]
      cases estado <;>
        simp [Crud.listar_tareas, Db.get_tareas, hrol, ht, estadoFiltra]
    · rintro rfl
      cases estado <;>
        simp [Crud.listar_tareas, Db.get_tareas, hrol, pyTruthy, estadoFiltra]

/-- C3 witness: the student Ana, passing usuario_id 99, still receives
exactly her own task. -/
theorem c3_listar_tareas_enmendado_witness :
    (usuarioAna.rol_id ≠ some 1 ∧ usuarioAna.id ≠ 0)
    ∧ Crud.listar_tareas usuarioAna (some 99) none estadoDemo = [tareaAna] :=
  ⟨⟨by decide, by decide⟩, by
    have h := (c3_listar_tareas_enmendado usuarioAna estadoDemo (some 99) none).1
      (by decide) (by decide)
    rw [h]; rfl⟩

/-- C9: the statistics routes take no credential: neither embedded
endpoint has a caller argument, because the routes declare no
authentication dependency. For any store and any existing (nonzero)
usuario_id, the per-user route returns the stored user together with the
counts of their tasks (total and per estado), schedule events and mood
entries; the general route returns the table sizes for any store. -/
theorem c9_estadisticas_sin_autenticacion (s : AppState) (uid : Nat) (u : Usuario)
    (hfind : s.usuarios.find? (fun x => x.id == uid) = some u) (h0 : uid ≠ 0) :
    Crud.estadisticas_usuario s uid
      = Except.ok
          { usuario := u,
            total_tareas := (s.tareas.filter (fun t => t.usuario_id == uid)).length,
            tareas_pendiente := ((s.tareas.filter (fun t => t.usuario_id == uid)).filter
              (fun t => t.estado == EstadoTarea.pendiente)).length,
            tareas_en_progreso := ((s.tareas.filter (fun t => t.usuario_id == uid)).filter
              (fun t => t.estado == EstadoTarea.en_progreso)).length,
            tareas_completada := ((s.tareas.filter (fun t => t.usuario_id == uid)).filter
              (fun t => t.estado == EstadoTarea.completada)).length,
            eventos_cronograma := (s.cronograma.filter (fun c => c.usuario_id == uid)).length,
            registros_estado_animo := (s.estado_animo.filter (fun e => e.usuario_id == uid)).length }
    ∧ (∀ s2 : AppState, Crud.estadisticas_generales s2
        = ⟨s2.usuarios.length, s2.tareas.length, s2.cronograma.length,
           s2.tutorias.length, s2.estado_animo.length⟩) := by
  constructor
  · have ht : pyTruthy (some uid) = true := by simp [pyTruthy, h0]
    simp [Crud.estadisticas_usuario, hfind, Db.get_tareas, Db.get_cronograma,
      Db.get_estados_animo, ht]
  · intro s2
    rfl

/-- C9 witness: the statistics of Ana (usuario 2) in the demo store. -/
theorem c9_estadisticas_sin_autenticacion_witness :
    (estadoDemo.usuarios.find? (fun x => x.id == 2) = some usuarioAna ∧ (2 : Nat) ≠ 0)
    ∧ Crud.estadisticas_usuario estadoDemo 2
      = Except.ok ⟨usuarioAna, 1, 1, 0, 0, 1, 1⟩ :=
  ⟨⟨by decide, by decide⟩, by
    have h := (c9_estadisticas_sin_autenticacion estadoDemo 2 usuarioAna (by decide) (by decide)).1
    rw [h]; rfl⟩

/-- C4 witness: deleting Ana (usuario 2) from the demo store succeeds. -/
theorem c4_eliminar_usuario_cascada_witness :
    ((estadoDemo.usuarios.find? (fun u => u.id == 2)).isSome
      ∧ (estadoDemo.usuarios.map (fun u => u.id)).Nodup)
    ∧ (eliminar_usuario estadoDemo 2).1 = Except.ok ()
    ∧ (eliminar_usuario estadoDemo 2).2.tutorias = estadoDemo.tutorias :=
  ⟨⟨by decide, by decide⟩,
   (c4_eliminar_usuario_cascada estadoDemo 2 (by decide) (by decide)).1,
   (c4_eliminar_usuario_cascada estadoDemo 2 (by decide) (by decide)).2.2.2.2.2.2.1⟩

/-- C5 witness: on the freshly initialised store, creating a user with a
fresh email and the existing rol_id 2 appends exactly that user. -/
theorem c5_crear_usuario_email_unico_witness :
    ((∀ u ∈ estadoInicial.usuarios, u.email ≠ "ana@example.com")
      ∧ (∀ r, (some 2 : Option Nat) = some r → (obtener_rol_por_id r).isSome))
    ∧ (crear_usuario estadoInicial ⟨"Ana", "ana@example.com", some 2, "pw"⟩).2.usuarios
      = estadoInicial.usuarios ++ [⟨1, "Ana", "ana@example.com", "pw", some 2⟩] :=
  ⟨⟨by decide, by decide⟩,
   ((c5_crear_usuario_email_unico estadoInicial ⟨"Ana", "ana@example.com", some 2, "pw"⟩).2
     (by decide) (by decide)).2⟩

/-- C6 witness: adding Beto (usuario 3) to tutoring session 1 as tutor
succeeds and appends exactly that participation. -/
theorem c6_agregar_usuario_tutoria_contrato_witness :
    ((obtener_usuario estadoDemo 3).isSome ∧ (obtener_tutoria estadoDemo 1).isSome
      ∧ (⟨3, 1, RolTutoria.tutor⟩ : UsuarioTutoria) ∉ estadoDemo.usuario_tutorias)
    ∧ agregar_usuario_tutoria estadoDemo ⟨3, 1, RolTutoria.tutor⟩
      = (Except.ok (),
         { estadoDemo with
           usuario_tutorias := estadoDemo.usuario_tutorias ++ [⟨3, 1, RolTutoria.tutor⟩] }) :=
  ⟨⟨by decide, by decide, by decide⟩,
   ((c6_agregar_usuario_tutoria_contrato estadoDemo ⟨3, 1, RolTutoria.tutor⟩).2.2
     (by decide) (by decide)).2.2 (by decide)⟩

/-- C7 witness: updating tarea 2 with only a new titulo succeeds. -/
theorem c7_actualizar_tarea_parcial_witness :
    (estadoDemo.tareas = [tareaAna] ++ tareaBeto :: [] ∧ tareaBeto.id = 2
      ∧ (∀ x ∈ [tareaAna], x.id ≠ 2))
    ∧ (actualizar_tarea estadoDemo 2 ⟨some "Nuevo", none, none, none⟩).1
      = Except.ok (mergeTarea tareaBeto ⟨some "Nuevo", none, none, none⟩) :=
  ⟨⟨rfl, rfl, by decide⟩,
   (c7_actualizar_tarea_parcial estadoDemo 2 ⟨some "Nuevo", none, none, none⟩
     [tareaAna] [] tareaBeto rfl rfl (by decide)).1⟩

/-- C8 witness: a mood entry for Ana with no fecha supplied stores the
date of the call (here 7). -/
theorem c8_crear_estado_animo_fecha_witness :
    ((obtener_usuario estadoDemo 2).isSome
      ∧ (⟨"triste", none, none, 2⟩ : EstadoAnimoCreate).fecha = none)
    ∧ crear_estado_animo 7 estadoDemo ⟨"triste", none, none, 2⟩
      = (Except.ok ⟨2, 2, 7, "triste", none⟩,
         { estadoDemo with
           estado_animo := estadoDemo.estado_animo ++ [⟨2, 2, 7, "triste", none⟩],
           next_estado_animo_id := 3 }) :=
  ⟨⟨by decide, rfl⟩,
   (c8_crear_estado_animo_fecha 7 estadoDemo ⟨"triste", none, none, 2⟩ (by decide)).1 rfl⟩

/-- C10 witness: Ana already participates in session 1 as estudiante and
is successfully added as tutor of the same session. -/
theorem c10_ambos_roles_witness :
    ((obtener_usuario estadoDemo 2).isSome ∧ (obtener_tutoria estadoDemo 1).isSome
      ∧ (⟨2, 1, RolTutoria.estudiante⟩ : UsuarioTutoria) ∈ estadoDemo.usuario_tutorias
      ∧ (⟨2, 1, RolTutoria.tutor⟩ : UsuarioTutoria) ∉ estadoDemo.usuario_tutorias)
    ∧ agregar_usuario_tutoria estadoDemo ⟨2, 1, RolTutoria.tutor⟩
      = (Except.ok (),
         { estadoDemo with
           usuario_tutorias := estadoDemo.usuario_tutorias ++ [⟨2, 1, RolTutoria.tutor⟩] }) :=
  ⟨⟨by decide, by decide, by decide, by decide⟩,
   (c10_ambos_roles estadoDemo 2 1 (by decide) (by decide)).1 (by decide) (by decide)⟩

end ProyectoDanna
